import Mathlib

/-!
Shallow embedding of `src/assignment_portofolio.py` (sales-analytics dashboard):
the filter pipeline (`filtered_df`), the aggregation builders on the Overview
page, and the prediction request builder on the Prediction page, together with
theorems checking the specification's claims about them.

Conventions of the embedding:
* a row of the loaded CSV is a `SaleRecord`; the money/quantity columns are
  modelled as exact rationals;
* `Tanggal_Pesanan` (the order date) is modelled as an integer day number,
  preserving exactly the comparisons the code performs on it;
* the Streamlit date-range widget value is a `List Int` of endpoints, so the
  code's `len(date_range) == 2` check is a match on a two-element list;
* fallible library calls (`pd.to_datetime` on month labels, `model.predict`)
  are modelled with `Option` / `Except`.
-/

namespace DS32B

/-- One row of `data/retail_store.csv` as loaded by `load_data`, with
`Tanggal_Pesanan` already parsed to a date (integer day number). -/
structure SaleRecord where
  order_id : String
  tanggal_pesanan : Int
  wilayah : String
  kategori : String
  produk : String
  jumlah : ℚ
  harga_satuan : ℚ
  diskon : ℚ
  metode_pembayaran : String
  total_penjualan : ℚ
  bulan : String
deriving DecidableEq

/-- Lines 66-73: if the date-range widget supplied two endpoints, keep the
records whose `Tanggal_Pesanan` lies in the closed interval; otherwise
(`else` branch, line 73) bypass the date filter entirely. -/
def date_filtered (records : List SaleRecord) (date_range : List Int) :
    List SaleRecord :=
  match date_range with
  | [start_date_filter, end_date_filter] =>
      records.filter fun r =>
        decide (start_date_filter ≤ r.tanggal_pesanan) &&
          decide (r.tanggal_pesanan ≤ end_date_filter)
  | _ => records

/-- Lines 66-90: the global filter of the Overview page — date range, then
`isin(selected_regions)` on `Wilayah`, then `isin(selected_categories)` on
`Kategori`. -/
def filtered_df (records : List SaleRecord) (date_range : List Int)
    (selected_regions selected_categories : List String) : List SaleRecord :=
  ((date_filtered records date_range).filter
      (fun r => selected_regions.contains r.wilayah)).filter
    (fun r => selected_categories.contains r.kategori)

/-- `Series.unique` (used for the widget option lists) and the distinct-count
of `nunique`: first occurrence of each value, in encounter order.
`seen` is the accumulator of values already emitted. -/
def unique_aux : List String → List String → List String
  | [], _ => []
  | x :: xs, seen =>
      if seen.contains x then unique_aux xs seen
      else x :: unique_aux xs (x :: seen)

/-- The distinct values of a column in first-encounter order
(`pandas.Series.unique`). -/
def unique_list (l : List String) : List String :=
  unique_aux l []

/-- Lexicographic comparison of character lists by code point — the string
order pandas uses when `groupby` sorts its keys ascending. -/
def chars_le : List Char → List Char → Bool
  | [], _ => true
  | _ :: _, [] => false
  | a :: as, b :: bs =>
      if a < b then true else if b < a then false else chars_le as bs

/-- Lexicographic string order (code points), as a relation for sorting. -/
def string_le (s t : String) : Prop :=
  chars_le s.toList t.toList = true

instance : DecidableRel string_le := fun s t =>
  inferInstanceAs (Decidable (chars_le s.toList t.toList = true))

/-- `groupby(key)[val].sum().reset_index()`: one `(key, sum)` row per distinct
key; pandas `groupby` emits the groups with their keys sorted ascending. -/
def group_sum (records : List SaleRecord) (key : SaleRecord → String)
    (val : SaleRecord → ℚ) : List (String × ℚ) :=
  (List.insertionSort string_le (unique_list (records.map key))).map
    fun k => (k, ((records.filter fun r => decide (key r = k)).map val).sum)

/-- Line 109: `filtered_df['Total_Penjualan'].sum()`. -/
def total_sales (records : List SaleRecord) : ℚ :=
  (records.map (fun r => r.total_penjualan)).sum

/-- Line 110: `filtered_df['OrderID'].nunique()`. -/
def total_orders (records : List SaleRecord) : Nat :=
  (unique_list (records.map (fun r => r.order_id))).length

/-- Line 111: `total_sales / total_orders if total_orders > 0 else 0`. -/
def avg_order_value (records : List SaleRecord) : ℚ :=
  if total_orders records > 0 then
    total_sales records / (total_orders records : ℚ)
  else 0

/-- Line 112: `filtered_df['Jumlah'].sum()`. -/
def total_products_sold (records : List SaleRecord) : ℚ :=
  (records.map (fun r => r.jumlah)).sum

/-- Line 186: `groupby('Kategori')['Total_Penjualan'].sum().reset_index()`. -/
def sales_by_category (records : List SaleRecord) : List (String × ℚ) :=
  group_sum records (fun r => r.kategori) (fun r => r.total_penjualan)

/-- Lines 215-219: `groupby('Metode_Pembayaran')['Total_Penjualan'].sum()`. -/
def sales_by_payment (records : List SaleRecord) : List (String × ℚ) :=
  group_sum records (fun r => r.metode_pembayaran) (fun r => r.total_penjualan)

/-- Lines 239-243: `groupby('Wilayah')['Total_Penjualan'].sum()`. -/
def sales_by_region (records : List SaleRecord) : List (String × ℚ) :=
  group_sum records (fun r => r.wilayah) (fun r => r.total_penjualan)

/-- Descending order on the summed amount, non-strict so that the sort is
stable on ties — the comparison `nlargest` (keep='first') effectively uses. -/
def desc_total (a b : String × ℚ) : Prop :=
  b.2 ≤ a.2

instance : DecidableRel desc_total := fun a b =>
  inferInstanceAs (Decidable (b.2 ≤ a.2))

instance : IsTotal (String × ℚ) desc_total :=
  ⟨fun a b => le_total b.2 a.2⟩

instance : IsTrans (String × ℚ) desc_total :=
  ⟨fun _ _ _ hab hbc => le_trans hbc hab⟩

/-- Line 161: `groupby('Produk')['Total_Penjualan'].sum().nlargest(10)`:
sort the grouped sums descending (stably, first kept on ties) and take the
first 10 rows. -/
def top_products_sales (records : List SaleRecord) : List (String × ℚ) :=
  (List.insertionSort desc_total
      (group_sum records (fun r => r.produk) (fun r => r.total_penjualan))).take 10

/-- A month period `(year, month)` as produced by `.dt.to_period('M')`. -/
def period_key (p : Nat × Nat) : Nat :=
  p.1 * 12 + p.2

/-- Split a character list on `'-'` (the separator of the month labels). -/
def split_on_dash : List Char → List Char → List (List Char)
  | [], acc => [acc.reverse]
  | c :: cs, acc =>
      if c = '-' then acc.reverse :: split_on_dash cs []
      else split_on_dash cs (c :: acc)

/-- Read a non-empty all-digit character list as a number. -/
def chars_to_nat (cs : List Char) : Option Nat :=
  if cs.isEmpty then none
  else if cs.all Char.isDigit then
    some (cs.foldl (fun n c => n * 10 + (c.toNat - '0'.toNat)) 0)
  else none

/-- `pd.to_datetime(label).to_period('M')` on a month label such as
`"2024-9"`: split on the dash, read both fields as numbers, reject an invalid
month number (where `to_datetime` would raise). -/
def parse_period (s : String) : Option (Nat × Nat) :=
  match split_on_dash s.toList [] with
  | [ys, ms] =>
      match chars_to_nat ys, chars_to_nat ms with
      | some y, some m => if 1 ≤ m && m ≤ 12 then some (y, m) else none
      | _, _ => none
  | _ => none

/-- Left-pad a numeral with zeros to the given width. -/
def pad_left (s : String) (n : Nat) : String :=
  String.mk (List.replicate (n - s.length) '0') ++ s

/-- `str(period)` for a monthly period: `"YYYY-MM"` with zero-padded fields. -/
def render_period (p : Nat × Nat) : String :=
  pad_left (toString p.1) 4 ++ "-" ++ pad_left (toString p.2) 2

/-- Chronological order on the rows of the monthly table: compare the
underlying periods (the `sort_values('Bulan')` comparison of line 130). -/
def month_le (a b : (Nat × Nat) × ℚ) : Prop :=
  period_key a.1 ≤ period_key b.1

instance : DecidableRel month_le := fun a b =>
  inferInstanceAs (Decidable (period_key a.1 ≤ period_key b.1))

instance : IsTotal ((Nat × Nat) × ℚ) month_le :=
  ⟨fun a b => Nat.le_total (period_key a.1) (period_key b.1)⟩

instance : IsTrans ((Nat × Nat) × ℚ) month_le :=
  ⟨fun _ _ _ hab hbc => Nat.le_trans hab hbc⟩

/-- Line 129: `pd.to_datetime(sales_by_month['Bulan']).dt.to_period('M')`
applied down the grouped rows; `none` when some label does not parse (where
`to_datetime` raises). -/
def attach_periods : List (String × ℚ) → Option (List ((Nat × Nat) × ℚ))
  | [] => some []
  | x :: xs =>
      match parse_period x.1, attach_periods xs with
      | some p, some l => some ((p, x.2) :: l)
      | _, _ => none

/-- Lines 127-130: group by `Bulan`, convert the labels to periods, sort the
rows chronologically (`sort_values('Bulan')`). -/
def sales_by_month_sorted (records : List SaleRecord) :
    Option (List ((Nat × Nat) × ℚ)) :=
  (attach_periods
      (group_sum records (fun r => r.bulan) (fun r => r.total_penjualan))).map
    (List.insertionSort month_le)

/-- Lines 127-131: the monthly-totals table handed to the line chart, labels
re-rendered as strings (`astype(str)`, line 131) after the chronological
sort. -/
def sales_by_month (records : List SaleRecord) : Option (List (String × ℚ)) :=
  (sales_by_month_sorted records).map
    (List.map fun x => (render_period x.1, x.2))

/-- The aggregate tables the Overview page renders when the filtered data is
non-empty. -/
structure OverviewTables where
  total : ℚ
  orders : Nat
  aov : ℚ
  units : ℚ
  monthly : Option (List (String × ℚ))
  top10 : List (String × ℚ)
  by_category : List (String × ℚ)
  by_payment : List (String × ℚ)
  by_region : List (String × ℚ)
deriving DecidableEq

/-- Outcome of rendering the Overview page: either the empty-data warning of
lines 96-98 (`st.warning` + `st.stop`, a degraded state, not an error), or the
rendered aggregates. -/
inductive OverviewOutcome where
  | empty_warning (msg : String)
  | rendered (tables : OverviewTables)
deriving DecidableEq

/-- Line 97: the warning message shown when the filter result is empty. -/
def warn_no_data : String :=
  "Tidak ada data yang tersedia berdasarkan filter yang Anda pilih. Silakan sesuaikan filter."

/-- Lines 96-286 control flow of the Overview page: if the filtered frame is
empty, warn and stop (no aggregation or chart builder runs); otherwise build
every aggregate table for rendering. -/
def overview_page (records : List SaleRecord) (date_range : List Int)
    (selected_regions selected_categories : List String) : OverviewOutcome :=
  let f := filtered_df records date_range selected_regions selected_categories
  if f.isEmpty then
    OverviewOutcome.empty_warning warn_no_data
  else
    OverviewOutcome.rendered
      { total := total_sales f
        orders := total_orders f
        aov := avg_order_value f
        units := total_products_sold f
        monthly := sales_by_month f
        top10 := top_products_sales f
        by_category := sales_by_category f
        by_payment := sales_by_payment f
        by_region := sales_by_region f }

/-- A calendar date as held by the prediction date widget. -/
structure PredDate where
  year : Nat
  month : Nat
  day : Nat
deriving DecidableEq

/-- `date.toordinal()` helper: days in the years before `year`
(proleptic Gregorian). -/
def days_before_year (year : Nat) : Nat :=
  let y := year - 1
  y * 365 + y / 4 - y / 100 + y / 400

/-- Gregorian leap-year test. -/
def is_leap (year : Nat) : Bool :=
  year % 4 == 0 && (year % 100 != 0 || year % 400 == 0)

/-- Cumulative day counts before each month in a non-leap year. -/
def days_in_month_cumulative : List Nat :=
  [0, 31, 59, 90, 120, 151, 181, 212, 243, 273, 304, 334]

/-- `date.toordinal()` helper: days in `year` before the first of `month`. -/
def days_before_month (year month : Nat) : Nat :=
  days_in_month_cumulative.getD (month - 1) 0 +
    (if month > 2 && is_leap year then 1 else 0)

/-- Line 300: `target_date.toordinal()` — the proleptic Gregorian ordinal of
the date (day 1 = 0001-01-01). -/
def toordinal (d : PredDate) : Nat :=
  days_before_year d.year + days_before_month d.year d.month + d.day

/-- The named inputs gathered by the prediction widgets (lines 297-318). -/
structure PredictionParams where
  target_date : PredDate
  avg_quantity : ℚ
  avg_unit_price : ℚ
  avg_discount : ℚ
  day_of_week_encoded : ℚ
  hour_of_day : ℚ
deriving DecidableEq

/-- Lines 324-331: the single-row DataFrame for the model — the six values in
the fixed positional order of the source, labelled by `model_features`
(`columns=model_features`). `pd.DataFrame([[...six values...]],
columns=model_features)` raises `ValueError` when the column-name count does
not match the data width, so assembly is fallible: `none` models that
(uncaught) raise. -/
def input_for_prediction (model_features : List String)
    (p : PredictionParams) : Option (List (String × ℚ)) :=
  let values := [(toordinal p.target_date : ℚ), p.avg_quantity,
    p.avg_unit_price, p.avg_discount, p.day_of_week_encoded, p.hour_of_day]
  if model_features.length = values.length then
    some (model_features.zip values)
  else none

/-- Outcome of one prediction attempt: the success panel (scalar prediction
plus the displayed feature row, lines 336-346), the caught warning of
line 349, or an uncaught crash — an exception raised at lines 324-331,
before the `try:` of line 333 begins. -/
inductive PredictionOutcome where
  | success (value : ℚ) (features : List (String × ℚ))
  | warning (msg : String)
  | crash (msg : String)
deriving DecidableEq

/-- Line 349: the error text, carrying the underlying cause message. -/
def prediction_error_text (e : String) : String :=
  "Terjadi kesalahan saat melakukan prediksi: " ++ e ++ ". Pastikan semua input valid."

/-- The uncaught `ValueError` raised when the feature-name list does not
match the six-value row (lines 324-331, outside the `try`). -/
def assembly_error_text : String :=
  "ValueError: shape of passed values does not match the columns"

/-- Lines 322-349: assemble the feature row (lines 324-331, BEFORE the `try:`
of line 333 — an assembly failure escapes the handler and crashes the
attempt), then call `predict` once inside the `try`, and either show the
value and the row or catch the exception and show a warning with its
message. The model itself is an opaque collaborator, passed as a fallible
function. -/
def prediction_page (predict : List (String × ℚ) → Except String ℚ)
    (model_features : List String) (p : PredictionParams) : PredictionOutcome :=
  match input_for_prediction model_features p with
  | none => PredictionOutcome.crash assembly_error_text
  | some input =>
      match predict input with
      | Except.ok v => PredictionOutcome.success v input
      | Except.error e => PredictionOutcome.warning (prediction_error_text e)

/-! ### Sample data used by the witnesses -/

/-- A concrete sale record for witnesses. -/
def sample_a : SaleRecord :=
  { order_id := "O1", tanggal_pesanan := 3, wilayah := "Jawa",
    kategori := "Elektronik", produk := "TV", jumlah := 2, harga_satuan := 100,
    diskon := 0, metode_pembayaran := "Tunai", total_penjualan := 200,
    bulan := "2024-10" }

/-- A second concrete sale record for witnesses. -/
def sample_b : SaleRecord :=
  { order_id := "O2", tanggal_pesanan := 9, wilayah := "Sumatra",
    kategori := "Pakaian", produk := "Baju", jumlah := 1, harga_satuan := 50,
    diskon := 0, metode_pembayaran := "Kredit", total_penjualan := 50,
    bulan := "2024-9" }

/-- A sale record with quantity 0, hence stored total
0 × 100 × (1 − 0) = 0 — allowed by the Sale Record invariant. -/
def sample_zero : SaleRecord :=
  { order_id := "O3", tanggal_pesanan := 4, wilayah := "Jawa",
    kategori := "Elektronik", produk := "Kabel", jumlah := 0,
    harga_satuan := 100, diskon := 0, metode_pembayaran := "Tunai",
    total_penjualan := 0, bulan := "2024-10" }

/-- Concrete prediction parameters for witnesses. -/
def sample_params : PredictionParams :=
  { target_date := ⟨2024, 6, 10⟩, avg_quantity := 2, avg_unit_price := 100,
    avg_discount := 1/10, day_of_week_encoded := 0, hour_of_day := 14 }

/-! ### Claim theorems -/

/-- C1: with `feature_order = ["d","q","p","disc","wd","hr"]` and the given
inputs, the assembled feature row is exactly
`[ordinal(2024-06-10), 2.0, 100.0, 0.1, 0, 14]`, each value labelled by the
name holding its position in `feature_order`; the ordinal is 739047; and
supplying the named parameters in a different order yields the same row. -/
theorem c1_prediction_feature_row :
    input_for_prediction ["d", "q", "p", "disc", "wd", "hr"]
        { target_date := ⟨2024, 6, 10⟩, avg_quantity := 2, avg_unit_price := 100,
          avg_discount := 1/10, day_of_week_encoded := 0, hour_of_day := 14 }
      = some [("d", (toordinal ⟨2024, 6, 10⟩ : ℚ)), ("q", 2), ("p", 100),
          ("disc", 1/10), ("wd", 0), ("hr", 14)]
    ∧ toordinal ⟨2024, 6, 10⟩ = 739047
    ∧ input_for_prediction ["d", "q", "p", "disc", "wd", "hr"]
        { hour_of_day := 14, avg_discount := 1/10, day_of_week_encoded := 0,
          avg_unit_price := 100, avg_quantity := 2, target_date := ⟨2024, 6, 10⟩ }
      = input_for_prediction ["d", "q", "p", "disc", "wd", "hr"]
        { target_date := ⟨2024, 6, 10⟩, avg_quantity := 2, avg_unit_price := 100,
          avg_discount := 1/10, day_of_week_encoded := 0, hour_of_day := 14 } :=
  ⟨rfl, by decide, rfl⟩

/-- C2: with a two-endpoint range `[a, b]`, `a ≤ b`, the filter returns
exactly the records whose order date lies in the closed interval `[a, b]`,
further restricted by the region and category selections. -/
theorem c2_closed_interval_filter (records : List SaleRecord) (a b : Int)
    (selected_regions selected_categories : List String) (_hab : a ≤ b) :
    filtered_df records [a, b] selected_regions selected_categories
      = records.filter fun r =>
          decide (a ≤ r.tanggal_pesanan) && decide (r.tanggal_pesanan ≤ b) &&
            selected_regions.contains r.wilayah &&
            selected_categories.contains r.kategori := by
  unfold filtered_df date_filtered
  simp only [List.filter_filter]
  refine List.filter_congr fun x _ => ?_
  cases decide (a ≤ x.tanggal_pesanan) <;>
    cases decide (x.tanggal_pesanan ≤ b) <;>
    cases selected_regions.contains x.wilayah <;>
    cases selected_categories.contains x.kategori <;> rfl

/-- Witness for C2 at concrete records, range `[0, 5]` and selections. -/
theorem c2_closed_interval_filter_witness :
    (0 : Int) ≤ 5
    ∧ filtered_df [sample_a, sample_b] [0, 5] ["Jawa", "Sumatra"]
          ["Elektronik", "Pakaian"]
        = [sample_a, sample_b].filter fun r =>
            decide ((0 : Int) ≤ r.tanggal_pesanan) &&
              decide (r.tanggal_pesanan ≤ 5) &&
              ["Jawa", "Sumatra"].contains r.wilayah &&
              ["Elektronik", "Pakaian"].contains r.kategori :=
  ⟨by decide,
    c2_closed_interval_filter [sample_a, sample_b] 0 5 ["Jawa", "Sumatra"]
      ["Elektronik", "Pakaian"] (by decide)⟩

/-- C3: with a malformed date range (fewer than two endpoints), the filter
does not fail and applies no date constraint: the result is the dataset
filtered only by the region and category selections. -/
theorem c3_malformed_range_bypasses_date (records : List SaleRecord)
    (date_range : List Int) (selected_regions selected_categories : List String)
    (hlen : date_range.length < 2) :
    filtered_df records date_range selected_regions selected_categories
      = (records.filter fun r => selected_regions.contains r.wilayah).filter
          fun r => selected_categories.contains r.kategori := by
  match date_range, hlen with
  | [], _ => rfl
  | [a], _ => rfl
  | a :: b :: t, h => simp [List.length_cons] at h; omega

/-- Witness for C3 at a single-endpoint range. -/
theorem c3_malformed_range_bypasses_date_witness :
    ([(3 : Int)] : List Int).length < 2
    ∧ filtered_df [sample_a, sample_b] [(3 : Int)] ["Jawa"] ["Elektronik"]
        = ([sample_a, sample_b].filter fun r =>
            ["Jawa"].contains r.wilayah).filter
            fun r => ["Elektronik"].contains r.kategori :=
  ⟨by decide,
    c3_malformed_range_bypasses_date [sample_a, sample_b] [3] ["Jawa"]
      ["Elektronik"] (by decide)⟩

/-! ### Helper lemmas about `unique_list`, `group_sum` and sums -/

theorem mem_unique_aux {x : String} :
    ∀ (l seen : List String), x ∈ unique_aux l seen ↔ x ∈ l ∧ x ∉ seen
  | [], seen => by simp [unique_aux]
  | a :: l, seen => by
    rw [unique_aux]
    split_ifs with h
    · have ha : a ∈ seen := List.elem_iff.1 h
      rw [mem_unique_aux l seen]
      constructor
      · exact fun ⟨hl, hs⟩ => ⟨List.mem_cons_of_mem a hl, hs⟩
      · rintro ⟨hal, hs⟩
        rcases List.mem_cons.1 hal with rfl | hl
        · exact absurd ha hs
        · exact ⟨hl, hs⟩
    · simp only [List.mem_cons, mem_unique_aux l (a :: seen)]
      have ha : a ∉ seen := fun hm => h (List.elem_iff.2 hm)
      constructor
      · rintro (rfl | ⟨hl, hs⟩)
        · exact ⟨Or.inl rfl, ha⟩
        · exact ⟨Or.inr hl, fun hseen => hs (Or.inr hseen)⟩
      · rintro ⟨rfl | hl, hs⟩
        · exact Or.inl rfl
        · by_cases hxa : x = a
          · exact Or.inl hxa
          · exact Or.inr ⟨hl, fun hm => hm.elim hxa hs⟩

theorem nodup_unique_aux : ∀ (l seen : List String), (unique_aux l seen).Nodup
  | [], _ => List.nodup_nil
  | a :: l, seen => by
    rw [unique_aux]
    split_ifs with h
    · exact nodup_unique_aux l seen
    · refine List.nodup_cons.2 ⟨?_, nodup_unique_aux l (a :: seen)⟩
      intro hmem
      exact ((mem_unique_aux l (a :: seen)).1 hmem).2 (List.mem_cons_self a seen)

theorem mem_unique_list {x : String} {l : List String} :
    x ∈ unique_list l ↔ x ∈ l := by
  simp [unique_list, mem_unique_aux]

theorem nodup_unique_list (l : List String) : (unique_list l).Nodup :=
  nodup_unique_aux l []

theorem sum_map_filter_not_add {α : Type} (p : α → Bool) (f : α → ℚ)
    (l : List α) :
    ((l.filter p).map f).sum + ((l.filter fun a => !p a).map f).sum
      = (l.map f).sum := by
  induction l with
  | nil => simp
  | cons a l ih =>
    by_cases h : p a
    · simp only [List.filter_cons, h, if_pos, Bool.not_true, if_neg,
        Bool.false_eq_true, not_false_eq_true, List.map_cons, List.sum_cons]
      rw [add_assoc, ih]
    · simp only [List.filter_cons, h, if_neg, Bool.not_false, if_pos,
        Bool.false_eq_true, not_false_eq_true, List.map_cons, List.sum_cons]
      rw [add_left_comm, ih]

/-- Grouped sums over a set of keys covering the records add up to the plain
sum over the records: grouping partitions the rows. -/
theorem sum_over_keys (key : SaleRecord → String) (val : SaleRecord → ℚ)
    (keys : List String) (records : List SaleRecord) (hnd : keys.Nodup)
    (hcov : ∀ r ∈ records, key r ∈ keys) :
    (keys.map fun k =>
        ((records.filter fun r => decide (key r = k)).map val).sum).sum
      = (records.map val).sum := by
  induction keys generalizing records with
  | nil =>
    have hrec : records = [] := by
      cases records with
      | nil => rfl
      | cons r l => exact absurd (hcov r (List.mem_cons_self r l)) (List.not_mem_nil _)
    subst hrec; simp
  | cons k ks ih =>
    have hk : k ∉ ks := (List.nodup_cons.1 hnd).1
    have hnd' : ks.Nodup := (List.nodup_cons.1 hnd).2
    have hrest : ∀ r ∈ records.filter fun r => !decide (key r = k),
        key r ∈ ks := by
      intro r hr
      have h1 := List.mem_filter.1 hr
      have h2 : ¬key r = k := by simpa using h1.2
      rcases List.mem_cons.1 (hcov r h1.1) with h | h
      · exact absurd h h2
      · exact h
    have heq : ∀ k' ∈ ks,
        ((records.filter fun r => decide (key r = k')).map val).sum
          = (((records.filter fun r => !decide (key r = k)).filter
              fun r => decide (key r = k')).map val).sum := by
      intro k' hk'
      have hkk : k' ≠ k := fun h => hk (h ▸ hk')
      rw [List.filter_filter]
      have hfil : records.filter (fun r => decide (key r = k'))
          = records.filter fun a => decide (key a = k') && !decide (key a = k) :=
        List.filter_congr fun r _ => by
          by_cases h : key r = k' <;> simp [h, hkk]
      rw [hfil]
    simp only [List.map_cons, List.sum_cons]
    rw [List.map_congr_left heq, ih _ hnd' hrest]
    exact sum_map_filter_not_add (fun r => decide (key r = k)) val records

/-- The second components of `group_sum` add up to the plain column sum. -/
theorem group_sum_snd_sum (records : List SaleRecord)
    (key : SaleRecord → String) (val : SaleRecord → ℚ) :
    ((group_sum records key val).map Prod.snd).sum = (records.map val).sum := by
  unfold group_sum
  rw [List.map_map]
  rw [((List.perm_insertionSort string_le
      (unique_list (records.map key))).map _).sum_eq]
  exact sum_over_keys key val _ _ (nodup_unique_list _)
    fun r hr => mem_unique_list.2 (List.mem_map_of_mem _ hr)

/-- Converting the month labels to periods keeps each row's total. -/
theorem attach_periods_snd :
    ∀ {g : List (String × ℚ)} {g' : List ((Nat × Nat) × ℚ)},
      attach_periods g = some g' → g'.map Prod.snd = g.map Prod.snd := by
  intro g
  induction g with
  | nil =>
    intro g' h
    simp only [attach_periods, Option.some.injEq] at h
    subst h; rfl
  | cons x xs ih =>
    intro g' h
    cases hp : parse_period x.1 with
    | none =>
      simp only [attach_periods, hp] at h
      exact Option.noConfusion h
    | some p =>
      cases hr : attach_periods xs with
      | none =>
        simp only [attach_periods, hp, hr] at h
        exact Option.noConfusion h
      | some l =>
        simp only [attach_periods, hp, hr, Option.some.injEq] at h
        subst h
        simp [ih hr]

/-- `date_filtered` only keeps records of the input. -/
theorem date_filtered_subset (records : List SaleRecord)
    (date_range : List Int) :
    ∀ r ∈ date_filtered records date_range, r ∈ records := by
  intro r hr
  unfold date_filtered at hr
  split at hr
  · exact (List.mem_filter.1 hr).1
  · exact hr

/-- Filtering a front segment of a list yields a front segment of the
filtered list. -/
theorem filter_take_front {α : Type} (p : α → Bool) (n : Nat) (l : List α) :
    (l.take n).filter p <+: l.filter p :=
  ⟨(l.drop n).filter p, by rw [← List.filter_append, List.take_append_drop]⟩

/-- Every per-group total of `group_sum` is nonnegative when the summed
column is. -/
theorem group_sum_snd_nonneg (records : List SaleRecord)
    (key : SaleRecord → String) (val : SaleRecord → ℚ)
    (h : ∀ r ∈ records, 0 ≤ val r) :
    ∀ x ∈ group_sum records key val, 0 ≤ x.2 := by
  intro x hx
  unfold group_sum at hx
  obtain ⟨k, _, rfl⟩ := List.mem_map.1 hx
  refine List.sum_nonneg fun y hy => ?_
  obtain ⟨r, hr, rfl⟩ := List.mem_map.1 hy
  exact h r (List.mem_filter.1 hr).1

/-- Stability of the descending value sort: the rows holding a fixed total
`v` come out of the sort exactly as they went in. -/
theorem insertionSort_filter_fixed_value (v : ℚ) (g : List (String × ℚ)) :
    (List.insertionSort desc_total g).filter (fun x => decide (x.2 = v))
      = g.filter fun x => decide (x.2 = v) := by
  have hpair : (g.filter fun x => decide (x.2 = v)).Pairwise desc_total := by
    refine List.pairwise_of_forall_mem_list fun a ha b hb => ?_
    have ha2 : a.2 = v := by simpa using (List.mem_filter.1 ha).2
    have hb2 : b.2 = v := by simpa using (List.mem_filter.1 hb).2
    show b.2 ≤ a.2
    rw [ha2, hb2]
  have hsub : List.Sublist (g.filter fun x => decide (x.2 = v))
      (List.insertionSort desc_total g) :=
    List.sublist_insertionSort hpair (List.filter_sublist g)
  have hcc : (g.filter fun x => decide (x.2 = v)).filter
      (fun x => decide (x.2 = v)) = g.filter fun x => decide (x.2 = v) :=
    List.filter_eq_self.2 fun a ha => (List.mem_filter.1 ha).2
  have hsub2 : List.Sublist (g.filter fun x => decide (x.2 = v))
      ((List.insertionSort desc_total g).filter
          fun x => decide (x.2 = v)) := by
    have := hsub.filter (fun x => decide (x.2 = v))
    rwa [hcc] at this
  have hlen : ((List.insertionSort desc_total g).filter
      fun x => decide (x.2 = v)).length
        = (g.filter fun x => decide (x.2 = v)).length :=
    ((List.perm_insertionSort desc_total g).filter _).length_eq
  exact (hsub2.eq_of_length hlen.symm).symm

/-! ### Claim theorems, continued -/

/-- C4: `top_products_sales` (group by product, sum total amount, `nlargest
10`) returns at most 10 rows, sorted by total amount descending; ties are
broken by first-encountered order in the grouped table (stability: for any
total `v`, its rows form a front segment of the grouped rows with total
`v`, in their original order); and the sum of the returned totals is at
most `total_sales` of the same input. The hypothesis is the Sale Record
invariant making the stored total amounts nonnegative. -/
theorem c4_top_products (records : List SaleRecord)
    (hpos : ∀ r ∈ records, 0 ≤ r.total_penjualan) :
    (top_products_sales records).length ≤ 10
    ∧ List.Pairwise desc_total (top_products_sales records)
    ∧ (∀ v : ℚ,
        (top_products_sales records).filter (fun x => decide (x.2 = v))
          <+: (group_sum records (fun r => r.produk)
              (fun r => r.total_penjualan)).filter fun x => decide (x.2 = v))
    ∧ ((top_products_sales records).map Prod.snd).sum ≤ total_sales records := by
  refine ⟨?_, ?_, ?_, ?_⟩
  · show (List.take 10 _).length ≤ 10
    rw [List.length_take]
    exact Nat.min_le_left _ _
  · exact List.Pairwise.sublist (List.take_sublist 10 _)
      (List.sorted_insertionSort desc_total _)
  · intro v
    have h1 := filter_take_front (fun x => decide (x.2 = v)) 10
      (List.insertionSort desc_total
        (group_sum records (fun r => r.produk) fun r => r.total_penjualan))
    rwa [insertionSort_filter_fixed_value] at h1
  · have hnn : ∀ x ∈ (List.insertionSort desc_total
        (group_sum records (fun r => r.produk)
          fun r => r.total_penjualan)).drop 10, 0 ≤ x.2 := by
      intro x hx
      have hxs := (List.drop_sublist 10 _).subset hx
      exact group_sum_snd_nonneg records _ _ hpos x
        ((List.mem_insertionSort desc_total).1 hxs)
    have hstep : ((top_products_sales records).map Prod.snd).sum
        ≤ ((List.insertionSort desc_total
            (group_sum records (fun r => r.produk)
              fun r => r.total_penjualan)).map Prod.snd).sum := by
      conv_rhs =>
        rw [← List.take_append_drop 10
          (List.insertionSort desc_total
            (group_sum records (fun r => r.produk)
              fun r => r.total_penjualan))]
      rw [List.map_append, List.sum_append]
      refine le_add_of_nonneg_right (List.sum_nonneg fun y hy => ?_)
      obtain ⟨x, hx, rfl⟩ := List.mem_map.1 hy
      exact hnn x hx
    refine hstep.trans ?_
    rw [((List.perm_insertionSort desc_total _).map Prod.snd).sum_eq]
    exact le_of_eq (group_sum_snd_sum records _ _)

/-- Witness for C4 at two concrete records (stability clause taken at the
total `v = 200`). -/
theorem c4_top_products_witness :
    (top_products_sales [sample_a, sample_b]).length ≤ 10
    ∧ List.Pairwise desc_total (top_products_sales [sample_a, sample_b])
    ∧ ((top_products_sales [sample_a, sample_b]).filter
          (fun x => decide (x.2 = (200 : ℚ)))
        <+: (group_sum [sample_a, sample_b] (fun r => r.produk)
            (fun r => r.total_penjualan)).filter
          fun x => decide (x.2 = (200 : ℚ)))
    ∧ ((top_products_sales [sample_a, sample_b]).map Prod.snd).sum
        ≤ total_sales [sample_a, sample_b] :=
  ⟨(c4_top_products [sample_a, sample_b] (by decide)).1,
    (c4_top_products [sample_a, sample_b] (by decide)).2.1,
    (c4_top_products [sample_a, sample_b] (by decide)).2.2.1 200,
    (c4_top_products [sample_a, sample_b] (by decide)).2.2.2⟩

/-- C5: whenever every month label of the grouped table parses, the monthly
table's rows are in chronological order of the underlying month period —
the sort key is the period, not the label string — and the displayed table
is exactly the sorted rows with their labels re-rendered afterwards. -/
theorem c5_monthly_chronological (records : List SaleRecord)
    (l : List ((Nat × Nat) × ℚ))
    (h : sales_by_month_sorted records = some l) :
    List.Pairwise month_le l
    ∧ sales_by_month records
        = some (l.map fun x => (render_period x.1, x.2)) := by
  constructor
  · unfold sales_by_month_sorted at h
    obtain ⟨g', _, hsort⟩ := Option.map_eq_some'.1 h
    rw [← hsort]
    exact List.sorted_insertionSort month_le g'
  · unfold sales_by_month
    rw [h]
    rfl

unseal Rat.add in
/-- Witness for C5 at records whose month labels arrive out of both input and
lexical order (`"2024-10"` sorts lexically before `"2024-9"`, but September
comes first chronologically and the labels are re-rendered, zero-padded). -/
theorem c5_monthly_chronological_witness :
    List.Pairwise month_le [((2024, 9), (50 : ℚ)), ((2024, 10), 200)]
    ∧ sales_by_month [sample_a, sample_b]
        = some ([((2024, 9), (50 : ℚ)), ((2024, 10), 200)].map
            fun x => (render_period x.1, x.2)) :=
  c5_monthly_chronological [sample_a, sample_b]
    [((2024, 9), 50), ((2024, 10), 200)] (by decide)

/-- C9 counterexample: with a one-name feature list the assembly of
lines 324-331 (`pd.DataFrame([[six values]], columns=model_features)`)
raises before the `try:` of line 333 begins, so the attempt crashes
uncaught instead of producing the line-349 warning — even though the model
itself would have succeeded. -/
theorem c9_assembly_crash_counterexample :
    prediction_page (fun _ => Except.ok 5) ["d"] sample_params
        = PredictionOutcome.crash assembly_error_text
    ∧ input_for_prediction ["d"] sample_params = none
    ∧ prediction_page (fun _ => Except.ok 5) ["d"] sample_params
        ≠ PredictionOutcome.warning (prediction_error_text assembly_error_text) := by
  decide

/-- C9 amended: when the feature row assembles (the feature-name list
matches the six supplied values), any failure the model's predict call
raises is caught and surfaced as a warning carrying the underlying cause
message, with `predict` applied exactly once — no retry — and on success
the scalar prediction and the assembled feature row are both returned for
display; but an assembly failure happens before the `try` block and
crashes the attempt uncaught rather than producing the warning. -/
theorem c9_predict_errors_surfaced
    (predict : List (String × ℚ) → Except String ℚ)
    (model_features : List String) (p : PredictionParams) :
    (∀ input, input_for_prediction model_features p = some input →
        (∀ e, predict input = Except.error e →
            prediction_page predict model_features p
              = PredictionOutcome.warning (prediction_error_text e))
        ∧ ∀ v, predict input = Except.ok v →
            prediction_page predict model_features p
              = PredictionOutcome.success v input)
    ∧ (input_for_prediction model_features p = none →
        prediction_page predict model_features p
          = PredictionOutcome.crash assembly_error_text) := by
  constructor
  · intro input hinput
    constructor <;> intro x hx <;> simp [prediction_page, hinput, hx]
  · intro hnone
    simp [prediction_page, hnone]

/-- Witness for the amended C9: with the six-name list a failing model
yields the warning with its message and a succeeding model yields the
success panel with the row; with a one-name list the attempt crashes. -/
theorem c9_predict_errors_surfaced_witness :
    prediction_page (fun _ => Except.error "bad input")
        ["d", "q", "p", "disc", "wd", "hr"] sample_params
      = PredictionOutcome.warning (prediction_error_text "bad input")
    ∧ prediction_page (fun _ => Except.ok 5)
        ["d", "q", "p", "disc", "wd", "hr"] sample_params
      = PredictionOutcome.success 5
          [("d", (toordinal ⟨2024, 6, 10⟩ : ℚ)), ("q", 2), ("p", 100),
            ("disc", 1/10), ("wd", 0), ("hr", 14)]
    ∧ prediction_page (fun _ => Except.ok 5) ["d"] sample_params
      = PredictionOutcome.crash assembly_error_text :=
  ⟨((c9_predict_errors_surfaced (fun _ => Except.error "bad input")
        ["d", "q", "p", "disc", "wd", "hr"] sample_params).1
      [("d", (toordinal ⟨2024, 6, 10⟩ : ℚ)), ("q", 2), ("p", 100),
        ("disc", 1/10), ("wd", 0), ("hr", 14)] rfl).1 "bad input" rfl,
    ((c9_predict_errors_surfaced (fun _ => Except.ok 5)
        ["d", "q", "p", "disc", "wd", "hr"] sample_params).1
      [("d", (toordinal ⟨2024, 6, 10⟩ : ℚ)), ("q", 2), ("p", 100),
        ("disc", 1/10), ("wd", 0), ("hr", 14)] rfl).2 5 rfl,
    (c9_predict_errors_surfaced (fun _ => Except.ok 5) ["d"]
      sample_params).2 rfl⟩

unseal Rat.add Rat.mul Rat.inv Rat.sub in
/-- C6 counterexample: a record with quantity 0 satisfies the Sale Record
invariant (total = 0 × 100 × (1 − 0) = 0), yet line 111 computes
`0 / 1 = 0`: the average is 0 while the distinct-order count is 1, so
"average_order_value = 0 iff order_count = 0" fails on this collection. -/
theorem c6_zero_total_counterexample :
    sample_zero.total_penjualan
        = sample_zero.jumlah * sample_zero.harga_satuan * (1 - sample_zero.diskon)
    ∧ avg_order_value [sample_zero] = 0
    ∧ ¬total_orders [sample_zero] = 0
    ∧ ¬(avg_order_value [sample_zero] = 0 ↔ total_orders [sample_zero] = 0) := by
  decide

/-- C6 amended: computing `average_order_value` never divides by zero — the
`if total_orders > 0` guard returns 0 whenever the distinct-order count is
0 — and with a positive count it equals `total_sales / total_orders`; hence
a zero average with a nonzero order count occurs exactly when `total_sales`
is 0 (possible for zero-total records), i.e. a zero average implies a zero
order count or a zero sales total. -/
theorem c6_avg_order_value_no_div_zero (records : List SaleRecord) :
    (total_orders records = 0 → avg_order_value records = 0)
    ∧ (0 < total_orders records →
        avg_order_value records
          = total_sales records / (total_orders records : ℚ))
    ∧ (avg_order_value records = 0 →
        total_orders records = 0 ∨ total_sales records = 0) := by
  refine ⟨?_, ?_, ?_⟩
  · intro h
    rw [avg_order_value, if_neg]
    omega
  · intro h
    rw [avg_order_value, if_pos h]
  · intro h0
    by_cases hc : total_orders records = 0
    · exact Or.inl hc
    · refine Or.inr ?_
      have hcnt : 0 < total_orders records := Nat.pos_of_ne_zero hc
      rw [avg_order_value, if_pos hcnt] at h0
      rcases div_eq_zero_iff.1 h0 with h | h
      · exact h
      · exact absurd h (Nat.cast_ne_zero.2 hc)

unseal Rat.add Rat.mul Rat.inv in
/-- Witness for the amended C6: the empty collection gives 0, two concrete
records give the quotient, and the zero-total record forces the
zero-sales disjunct. -/
theorem c6_avg_order_value_no_div_zero_witness :
    avg_order_value [] = 0
    ∧ avg_order_value [sample_a, sample_b]
        = total_sales [sample_a, sample_b]
            / (total_orders [sample_a, sample_b] : ℚ)
    ∧ (total_orders [sample_zero] = 0 ∨ total_sales [sample_zero] = 0) :=
  ⟨(c6_avg_order_value_no_div_zero []).1 (by decide),
    (c6_avg_order_value_no_div_zero [sample_a, sample_b]).2.1 (by decide),
    (c6_avg_order_value_no_div_zero [sample_zero]).2.2 (by decide)⟩

/-- C7: selecting the full set of regions and the full set of categories
present in the dataset leaves the date-restricted record count unchanged —
the full-set selections are an identity. -/
theorem c7_full_selection_identity (records : List SaleRecord)
    (date_range : List Int) :
    (filtered_df records date_range
        (unique_list (records.map fun r => r.wilayah))
        (unique_list (records.map fun r => r.kategori))).length
      = (date_filtered records date_range).length := by
  unfold filtered_df
  have h1 : (date_filtered records date_range).filter
      (fun r => (unique_list (records.map fun r => r.wilayah)).contains r.wilayah)
        = date_filtered records date_range := by
    rw [List.filter_eq_self]
    intro r hr
    exact List.elem_iff.2 (mem_unique_list.2
      (List.mem_map_of_mem _ (date_filtered_subset records date_range r hr)))
  rw [h1, List.filter_eq_self.2]
  intro r hr
  exact List.elem_iff.2 (mem_unique_list.2
    (List.mem_map_of_mem _ (date_filtered_subset records date_range r hr)))

/-- C8: when the filtered collection of the Overview page is empty, the page
renders the distinct empty-data warning state (not an error and not a
rendered page, so no aggregation or chart builder output exists). -/
theorem c8_empty_filter_warns_and_stops (records : List SaleRecord)
    (date_range : List Int) (selected_regions selected_categories : List String)
    (h : filtered_df records date_range selected_regions selected_categories
        = []) :
    overview_page records date_range selected_regions selected_categories
        = OverviewOutcome.empty_warning warn_no_data
    ∧ ∀ t, overview_page records date_range selected_regions selected_categories
        ≠ OverviewOutcome.rendered t := by
  constructor
  · simp [overview_page, h]
  · intro t hcontra
    simp [overview_page, h] at hcontra

/-- Witness for C8: an empty dataset filters to the empty collection. -/
theorem c8_empty_filter_warns_and_stops_witness :
    overview_page [] [0, 5] ["Jawa"] ["Elektronik"]
        = OverviewOutcome.empty_warning warn_no_data
    ∧ ∀ t, overview_page [] [0, 5] ["Jawa"] ["Elektronik"]
        ≠ OverviewOutcome.rendered t :=
  c8_empty_filter_warns_and_stops [] [0, 5] ["Jawa"] ["Elektronik"] (by decide)

/-- C10: every single-dimension group-by-sum table partitions the filtered
rows: its per-group totals add up to `total_sales` of the same input —
nothing is lost or double-counted. This holds for the category, payment
method and region tables, and for the monthly table whenever its labels
parse. -/
theorem c10_group_sums_partition (records : List SaleRecord) :
    ((sales_by_category records).map Prod.snd).sum = total_sales records
    ∧ ((sales_by_payment records).map Prod.snd).sum = total_sales records
    ∧ ((sales_by_region records).map Prod.snd).sum = total_sales records
    ∧ ∀ t, sales_by_month records = some t →
        (t.map Prod.snd).sum = total_sales records := by
  refine ⟨group_sum_snd_sum records _ _, group_sum_snd_sum records _ _,
    group_sum_snd_sum records _ _, ?_⟩
  intro t ht
  unfold sales_by_month at ht
  obtain ⟨l, hl, hlt⟩ := Option.map_eq_some'.1 ht
  unfold sales_by_month_sorted at hl
  obtain ⟨g', hg', hsort⟩ := Option.map_eq_some'.1 hl
  subst hlt
  subst hsort
  rw [List.map_map]
  have hperm := (List.perm_insertionSort month_le g').map
    (Prod.snd ∘ fun x : (Nat × Nat) × ℚ => (render_period x.1, x.2))
  rw [hperm.sum_eq]
  have hsnd : g'.map (Prod.snd ∘ fun x : (Nat × Nat) × ℚ =>
      (render_period x.1, x.2)) = g'.map Prod.snd := rfl
  rw [hsnd, attach_periods_snd hg']
  exact group_sum_snd_sum records _ _

unseal Rat.add in
/-- Witness for C10's monthly clause at concrete records whose labels parse
(out of lexical order: the grouped keys are `"2024-10" < "2024-9"`). -/
theorem c10_group_sums_partition_witness :
    ((sales_by_category [sample_a, sample_b]).map Prod.snd).sum
        = total_sales [sample_a, sample_b]
    ∧ (([("2024-09", (50 : ℚ)), ("2024-10", 200)].map Prod.snd).sum
        = total_sales [sample_a, sample_b]) :=
  ⟨(c10_group_sums_partition [sample_a, sample_b]).1,
    (c10_group_sums_partition [sample_a, sample_b]).2.2.2
      [("2024-09", 50), ("2024-10", 200)] (by decide)⟩

end DS32B
